import Mathlib

/-!
Shallow embedding of the neurosurveillance session daemon core
(src/session-daemon): the Radiens status poller (radiens_poller.py),
the session manager (session_manager.py) and the Frigate recording
controller (frigate_controller.py), together with theorems settling the
specification claims about them.

External effects (time, UUID generation, the Radiens client, timezone
conversion, MQTT publish outcomes, HTTP poll responses, disk writes)
are modelled as explicit parameters supplied by the environment; the
functions below mirror the control flow of the Python source on those
inputs.  Timestamps are modelled as integer epoch seconds (the source
uses float seconds; no claim depends on sub-second values).
-/

namespace Neurosurveillance

/-! ## Radiens poller (radiens_poller.py) -/

/-- `RecordingState` enum: Radiens recording states. -/
inductive RecordingState where
  | ON
  | OFF
  | UNKNOWN
deriving DecidableEq, Repr

/-- `RadiensStatus` dataclass: snapshot of Radiens state from a single
poll.  `poll_time` is omitted (wall clock, unused by any logic). -/
structure RadiensStatus where
  recording : RecordingState := .UNKNOWN
  stream : String := ""
  base_name : String := ""
  file_path : String := ""
  connected : Bool := false
  error : Option String := none
deriving DecidableEq, Repr

/-- Mutable fields of `RadiensPoller`.  `client` is true when `_client`
is not `None` (i.e. a `connect()` attempt got as far as constructing the
client). -/
structure PollerState where
  client : Bool := false
  previous_state : RecordingState := .UNKNOWN
  connected : Bool := false
  consecutive_errors : Nat := 0
deriving DecidableEq, Repr

/-- Outcome of one `self._client.get_status()` call, supplied by the
environment: either a raw status (its `recording` rendered via `str`,
plus `stream`, `base_name`, `path` attributes) or a raised exception. -/
inductive GetStatusResult where
  | ok (recording stream base_name path : String)
  | err (msg : String)
deriving DecidableEq, Repr

/-- A callback invocation performed during one `poll()` call:
`on_session_start` or `on_session_end`, carrying the status snapshot
passed to the handler. -/
inductive PollEvent where
  | sessionStart (st : RadiensStatus)
  | sessionEnd (st : RadiensStatus)
deriving DecidableEq, Repr

/-- The state classification inside `RadiensPoller.poll`:
`"R_ON" ↦ ON`, `"R_OFF" ↦ OFF`, anything else `↦ UNKNOWN` (with a
warning log, never an exception). -/
def classify (rec_str : String) : RecordingState :=
  if rec_str = "R_ON" then .ON
  else if rec_str = "R_OFF" then .OFF
  else .UNKNOWN

/-- `RadiensPoller.poll`: returns the updated poller state, the status
snapshot returned to the caller, and the list of callback invocations
fired during the call (in order). -/
def poll (s : PollerState) (r : GetStatusResult) :
    PollerState × RadiensStatus × List PollEvent :=
  if s.client = false then
    (s, { connected := false,
          error := some "Not connected (call connect() first)" }, [])
  else
    match r with
    | .ok rec_str stream base_name path =>
      let current := classify rec_str
      let status : RadiensStatus :=
        { recording := current, stream := stream, base_name := base_name,
          file_path := path, connected := true }
      let events : List PollEvent :=
        if s.previous_state = .OFF ∧ current = .ON then
          [.sessionStart status]
        else if s.previous_state = .ON ∧ current = .OFF then
          [.sessionEnd status]
        else []
      ({ s with connected := true, consecutive_errors := 0,
                previous_state := current },
       status, events)
    | .err msg =>
      ({ s with connected := false,
                consecutive_errors := s.consecutive_errors + 1 },
       { connected := false, error := some msg }, [])

/-- Run `poll` over a sequence of environment outcomes, collecting the
callback invocations of each step. -/
def pollTrace (s : PollerState) : List GetStatusResult →
    PollerState × List (List PollEvent)
  | [] => (s, [])
  | r :: rest =>
    let step := poll s r
    let next := pollTrace step.1 rest
    (next.1, step.2.2 :: next.2)

/-- Whether a list of events contains an `on_session_start` invocation. -/
def hasStart (evs : List PollEvent) : Bool :=
  evs.any fun e => match e with | .sessionStart _ => true | _ => false

/-- Whether a list of events contains an `on_session_end` invocation. -/
def hasEnd (evs : List PollEvent) : Bool :=
  evs.any fun e => match e with | .sessionEnd _ => true | _ => false

/-- Number of start edges in a trace. -/
def countStarts (trace : List (List PollEvent)) : Nat :=
  (trace.map fun evs => (evs.filter fun e =>
    match e with | .sessionStart _ => true | _ => false).length).sum

/-- Number of end edges in a trace. -/
def countEnds (trace : List (List PollEvent)) : Nat :=
  (trace.map fun evs => (evs.filter fun e =>
    match e with | .sessionEnd _ => true | _ => false).length).sum

/-- Poller state right after a successful `connect()`. -/
def connectedPoller : PollerState :=
  { client := true, previous_state := .UNKNOWN, connected := true,
    consecutive_errors := 0 }

/-- C1: on a connected poller, `poll` fires `on_session_start` exactly
when the classified indicator is On and the stored previous state is
Off, fires `on_session_end` exactly when the indicator is Off and the
previous state is On; a first-ever observation (previous Unknown) and an
Unknown classification fire nothing; a failed poll leaves the stored
previous state unchanged and fires nothing; and the poll sequence
[Off, On, On, Off] with no errors fires exactly one start edge and one
end edge. -/
theorem radiens_poll_edge_discipline
    (prev : RecordingState) (conn : Bool) (errs : Nat)
    (rec stream base path msg : String) :
    (∀ res, res = poll ⟨true, prev, conn, errs⟩ (.ok rec stream base path) →
      (hasStart res.2.2 = true ↔ (prev = .OFF ∧ classify rec = .ON)) ∧
      (hasEnd res.2.2 = true ↔ (prev = .ON ∧ classify rec = .OFF)) ∧
      (prev = .UNKNOWN → res.2.2 = []) ∧
      (classify rec = .UNKNOWN → res.2.2 = []) ∧
      res.1.previous_state = classify rec) ∧
    (∀ rese, rese = poll ⟨true, prev, conn, errs⟩ (.err msg) →
      rese.1.previous_state = prev ∧ rese.2.2 = []) ∧
    (∀ tr, tr = (pollTrace connectedPoller
        [.ok "R_OFF" "" "" "", .ok "R_ON" "" "" "",
         .ok "R_ON" "" "" "", .ok "R_OFF" "" "" ""]).2 →
      countStarts tr = 1 ∧ countEnds tr = 1 ∧
      tr.map hasStart = [false, true, false, false] ∧
      tr.map hasEnd = [false, false, false, true]) := by
  refine ⟨?_, ?_, ?_⟩
  · rintro res rfl
    cases hc : classify rec <;> cases prev <;>
      simp [poll, hasStart, hasEnd, hc]
  · rintro rese rfl
    simp [poll]
  · rintro tr rfl
    decide

/-- C1 witness: concrete instantiation (previous Off, indicator string
"R_ON") where the start-edge biconditional is discharged and fires the
callback. -/
theorem radiens_poll_edge_discipline_witness :
    hasStart (poll ⟨true, .OFF, true, 0⟩
      (.ok "R_ON" "s" "b" "p")).2.2 = true :=
  ((radiens_poll_edge_discipline .OFF true 0 "R_ON" "s" "b" "p" "e").1
    _ rfl).1.mpr ⟨rfl, rfl⟩

/-- C10: calling `poll` before any successful `connect` (client still
`None`) returns a snapshot with `connected = false` and the
"not connected" error, fires no callback, and leaves `previous_state`,
the connected flag and the consecutive-error count unchanged. -/
theorem radiens_poll_without_client
    (prev : RecordingState) (conn : Bool) (errs : Nat)
    (r : GetStatusResult) :
    poll ⟨false, prev, conn, errs⟩ r =
      (⟨false, prev, conn, errs⟩,
       { connected := false,
         error := some "Not connected (call connect() first)" },
       []) := rfl

/-! ## Session manager (session_manager.py) -/

/-- `SessionMetadata` dataclass: user-provided metadata for a session.
All fields default to the `"unknown"` placeholder (chamber to 0). -/
structure SessionMetadata where
  mouse_id : String := "unknown"
  recording_type : String := "unknown"
  user_name : String := "unknown"
  chamber : Int := 0
deriving DecidableEq, Repr

/-- `SessionMetadata.is_default`: true iff no metadata was explicitly
set, decided by comparing the three name fields to `"unknown"`. -/
def SessionMetadata.is_default (m : SessionMetadata) : Bool :=
  m.mouse_id == "unknown" && m.recording_type == "unknown"
    && m.user_name == "unknown"

/-- `SessionRecord` dataclass: complete record of a session.  Times are
integer epoch seconds (source: float seconds); local times are carried
as opaque ISO strings supplied by the environment. -/
structure SessionRecord where
  session_id : String := ""
  start_time_utc : Int := 0
  end_time_utc : Int := 0
  start_time_local : String := ""
  end_time_local : String := ""
  duration_seconds : Int := 0
  mouse_id : String := ""
  recording_type : String := ""
  user_name : String := ""
  chamber : Int := 0
  camera : String := ""
  radiens_xdat_filename : String := ""
  radiens_xdat_path : String := ""
  video_filename : String := ""
  export_status : String := "pending"
  nas_transfer_status : String := "skipped"
deriving DecidableEq, Repr

/-- A local calendar time, the output of the timezone conversion
`datetime.fromtimestamp(utc, tz)` restricted to the fields that
`strftime("%y%m%d%H%M")` reads. -/
structure LocalTime where
  year : Nat
  month : Nat
  day : Nat
  hour : Nat
  minute : Nat
deriving DecidableEq, Repr

/-- Mutable state of a `SessionManager` (directories are disk-only and
omitted; `tz` abstracts the `ZoneInfo` conversion from epoch seconds to
local calendar time). -/
structure SessionManagerState where
  cameras : List (String × String) :=
    [("chamber_0", "pi_cam_0"), ("chamber_1", "pi_cam_1")]
  tz : Int → LocalTime
  pending_metadata : SessionMetadata := {}
  active_session : Option SessionRecord := none
  history : List SessionRecord := []

/-- Python `dict.get(key)` on the cameras mapping. -/
def dictGet (d : List (String × String)) (k : String) : Option String :=
  (d.find? fun kv => kv.1 == k).map (·.2)

/-- `SessionManager.set_metadata`: partial update of the pending
metadata; `none` arguments leave the corresponding field unchanged.
Returns the updated state and the updated metadata. -/
def set_metadata (s : SessionManagerState)
    (mouse_id recording_type user_name : Option String)
    (chamber : Option Int) : SessionManagerState × SessionMetadata :=
  let m := s.pending_metadata
  let m := match mouse_id with
    | some v => { m with mouse_id := v }
    | none => m
  let m := match recording_type with
    | some v => { m with recording_type := v }
    | none => m
  let m := match user_name with
    | some v => { m with user_name := v }
    | none => m
  let m := match chamber with
    | some v => { m with chamber := v }
    | none => m
  ({ s with pending_metadata := m }, m)

/-- `SessionManager.clear_metadata`: reset pending metadata to its
defaults. -/
def clear_metadata (s : SessionManagerState) : SessionManagerState :=
  { s with pending_metadata := {} }

/-- Zero-padded two-digit rendering used by `strftime`. -/
def pad2 (n : Nat) : String :=
  if n < 10 then "0" ++ toString n else toString n

/-- `strftime("%y%m%d%H%M")` on a local calendar time. -/
def strftimeYYMMDDHHMM (t : LocalTime) : String :=
  pad2 (t.year % 100) ++ pad2 t.month ++ pad2 t.day
    ++ pad2 t.hour ++ pad2 t.minute

/-- Python `str.replace(" ", "_")`. -/
def underscoreSpaces (s : String) : String :=
  s.map fun c => if c = ' ' then '_' else c

/-- `SessionManager._generate_filename`:
`YYMMDDHHMM_mouseID_type.mp4`, the timestamp taken from the session's
start time converted to local time. -/
def generate_filename (tz : Int → LocalTime) (session : SessionRecord) :
    String :=
  let timestamp := strftimeYYMMDDHHMM (tz session.start_time_utc)
  let mouse := underscoreSpaces session.mouse_id
  let rec_type := underscoreSpaces session.recording_type
  timestamp ++ "_" ++ mouse ++ "_" ++ rec_type ++ ".mp4"

/-- `SessionManager.start_session`: builds a new `SessionRecord` from
the pending metadata (camera looked up under `chamber_<n>`, with a
synthesized `pi_cam_<n>` fallback) and stores it as the active session.
`now_utc`, `now_local_iso` and `uuid` are the environment's clock and
UUID draws.  The source performs no conflict check and does not reset
the pending metadata. -/
def start_session (s : SessionManagerState) (now_utc : Int)
    (now_local_iso : String) (uuid : String)
    (radiens_base_name radiens_file_path : String) :
    SessionManagerState × SessionRecord :=
  let meta := s.pending_metadata
  let camera_key := "chamber_" ++ toString meta.chamber
  let camera_id :=
    (dictGet s.cameras camera_key).getD ("pi_cam_" ++ toString meta.chamber)
  let session : SessionRecord :=
    { session_id := uuid
      start_time_utc := now_utc
      start_time_local := now_local_iso
      mouse_id := meta.mouse_id
      recording_type := meta.recording_type
      user_name := meta.user_name
      chamber := meta.chamber
      camera := camera_id
      radiens_xdat_filename := radiens_base_name
      radiens_xdat_path := radiens_file_path }
  ({ s with active_session := some session }, session)

/-- `SessionManager.end_session`: `None` when no session is active;
otherwise stamps end time and duration, derives the filename, appends
to history, clears the active slot and resets the pending metadata.
(The sidecar JSON write is a best-effort disk effect with no state
impact.) -/
def end_session (s : SessionManagerState) (now_utc : Int)
    (now_local_iso : String) :
    SessionManagerState × Option SessionRecord :=
  match s.active_session with
  | none => (s, none)
  | some session =>
    let session := { session with
      end_time_utc := now_utc
      end_time_local := now_local_iso
      duration_seconds := now_utc - session.start_time_utc
      video_filename := generate_filename s.tz session }
    ({ s with history := s.history ++ [session]
              active_session := none
              pending_metadata := {} },
     some session)

/-- `SessionManager.abort_session`: like `end_session` but stamps
`aborted: <reason>` as the export status. -/
def abort_session (s : SessionManagerState) (now_utc : Int)
    (now_local_iso : String) (reason : String) :
    SessionManagerState × Option SessionRecord :=
  match s.active_session with
  | none => (s, none)
  | some session =>
    let session := { session with
      end_time_utc := now_utc
      end_time_local := now_local_iso
      duration_seconds := now_utc - session.start_time_utc
      video_filename := generate_filename s.tz session
      export_status := "aborted: " ++ reason }
    ({ s with history := s.history ++ [session]
              active_session := none
              pending_metadata := {} },
     some session)

/-- A fixed timezone conversion used for concrete instances. -/
def tz0 : Int → LocalTime := fun _ => ⟨2025, 1, 2, 3, 4⟩

/-- A freshly constructed `SessionManager` (empty history, default
pending metadata, no active session). -/
def smInit : SessionManagerState := { tz := tz0 }

/-- A session already active, and a manager holding it, for concrete
instances of the conflicting-start behaviour. -/
def oldSession : SessionRecord := { session_id := "OLD", start_time_utc := 100 }

/-- A manager with `oldSession` active. -/
def smWithActive : SessionManagerState :=
  { tz := tz0, active_session := some oldSession }

/-- C2 counterexample: `start_session` called while a session is active
does not fail and does not leave the existing active session in place —
the active slot afterwards holds the new session, not the old one. -/
theorem start_session_conflict_counterexample :
    (start_session smWithActive 200 "lt" "NEW" "" "").1.active_session
        ≠ some oldSession ∧
    ((start_session smWithActive 200 "lt" "NEW" "" "").1.active_session).map
        SessionRecord.session_id = some "NEW" := by
  constructor
  · decide
  · rfl

/-- C2 amended: `start_session` called while a session is already
active never fails; it silently replaces the active-session slot with
the newly built session (whose id is the fresh uuid), and the orphaned
previous session is not added to history (history is unchanged). -/
theorem start_session_overwrites_active
    (s : SessionManagerState) (now_utc : Int)
    (now_local uuid bn fp : String) (old : SessionRecord)
    (_h : s.active_session = some old) :
    (start_session s now_utc now_local uuid bn fp).1.active_session
        = some (start_session s now_utc now_local uuid bn fp).2 ∧
    (start_session s now_utc now_local uuid bn fp).1.history = s.history ∧
    (start_session s now_utc now_local uuid bn fp).2.session_id = uuid :=
  ⟨rfl, rfl, rfl⟩

/-- C2 witness: the amended behaviour at a concrete conflicting call. -/
theorem start_session_overwrites_active_witness :
    (start_session smWithActive 200 "lt" "NEW" "" "").1.active_session
        = some (start_session smWithActive 200 "lt" "NEW" "" "").2 ∧
    (start_session smWithActive 200 "lt" "NEW" "" "").1.history
        = smWithActive.history ∧
    (start_session smWithActive 200 "lt" "NEW" "" "").2.session_id = "NEW" :=
  start_session_overwrites_active smWithActive 200 "lt" "NEW" "" "" oldSession rfl

/-- C3 counterexample: after `set_metadata(mouse_id="M1",
recording_type="basal", chamber=0)` followed by `start_session`, the
pending metadata is not reset — `is_default()` is false immediately
after `start_session` returns, and the stored mouse id is still "M1". -/
theorem start_session_keeps_pending_counterexample :
    ((start_session (set_metadata smInit (some "M1") (some "basal")
        none (some 0)).1 0 "" "U1" "" "").1.pending_metadata.is_default
      = false) ∧
    ((start_session (set_metadata smInit (some "M1") (some "basal")
        none (some 0)).1 0 "" "U1" "" "").1.pending_metadata.mouse_id
      = "M1") := by
  constructor
  · decide
  · rfl

/-- C3 amended: `start_session` copies the pending metadata values into
the new session but leaves the pending metadata itself untouched; the
reset to defaults happens in `end_session`, so after a full start+end
cycle the pending metadata is default again and a further
`start_session` without an intervening `set_metadata` produces a
session carrying the "unknown" placeholders. -/
theorem start_session_copies_end_session_resets
    (s : SessionManagerState) (now : Int) (loc uuid bn fp : String) :
    ((start_session s now loc uuid bn fp).2.mouse_id
        = s.pending_metadata.mouse_id ∧
     (start_session s now loc uuid bn fp).2.recording_type
        = s.pending_metadata.recording_type ∧
     (start_session s now loc uuid bn fp).2.user_name
        = s.pending_metadata.user_name ∧
     (start_session s now loc uuid bn fp).2.chamber
        = s.pending_metadata.chamber) ∧
    (start_session s now loc uuid bn fp).1.pending_metadata
        = s.pending_metadata ∧
    (∀ s2 : SessionManagerState, ∀ now2 : Int, ∀ loc2 : String,
      ∀ sess : SessionRecord, s2.active_session = some sess →
        (end_session s2 now2 loc2).1.pending_metadata = {}) ∧
    (∀ now2 : Int, ∀ loc2 : String, ∀ now3 : Int, ∀ loc3 uuid3 bn3 fp3 : String,
      (start_session
          (end_session (start_session s now loc uuid bn fp).1 now2 loc2).1
          now3 loc3 uuid3 bn3 fp3).2.mouse_id = "unknown" ∧
      (start_session
          (end_session (start_session s now loc uuid bn fp).1 now2 loc2).1
          now3 loc3 uuid3 bn3 fp3).2.recording_type = "unknown" ∧
      (start_session
          (end_session (start_session s now loc uuid bn fp).1 now2 loc2).1
          now3 loc3 uuid3 bn3 fp3).2.user_name = "unknown") := by
  refine ⟨⟨rfl, rfl, rfl, rfl⟩, rfl, ?_, ?_⟩
  · intro s2 now2 loc2 sess h
    simp [end_session, h]
  · intro now2 loc2 now3 loc3 uuid3 bn3 fp3
    exact ⟨rfl, rfl, rfl⟩

/-- C3 witness: the amended behaviour instantiated on a concrete
start+end cycle. -/
theorem start_session_copies_end_session_resets_witness :
    (end_session (start_session smInit 0 "" "u" "" "").1 1 "").1.pending_metadata
      = {} :=
  (start_session_copies_end_session_resets smInit 0 "" "u" "" "").2.2.1
    (start_session smInit 0 "" "u" "" "").1 1 ""
    (start_session smInit 0 "" "u" "" "").2 rfl

/-- C7: `end_session` with no active session returns the `None` signal
and leaves the whole manager state (history, active slot, pending
metadata) unchanged. -/
theorem end_session_no_active (s : SessionManagerState) (now : Int)
    (loc : String) (h : s.active_session = none) :
    end_session s now loc = (s, none) := by
  simp [end_session, h]

/-- C7 witness: a freshly constructed manager has no active session and
`end_session` is the identity on it. -/
theorem end_session_no_active_witness :
    end_session smInit 0 "" = (smInit, none) :=
  end_session_no_active smInit 0 "" rfl

/-- C8: the derived output filename depends only on (start time, mouse
id, recording type) — two sessions agreeing on those three yield the
same filename — and it equals the local start time formatted
`YYMMDDHHMM`, the mouse id and the recording type with spaces replaced
by underscores, joined by underscores, with the `.mp4` extension. -/
theorem generate_filename_pure_format
    (tz : Int → LocalTime) (s1 s2 : SessionRecord)
    (ht : s1.start_time_utc = s2.start_time_utc)
    (hm : s1.mouse_id = s2.mouse_id)
    (hr : s1.recording_type = s2.recording_type) :
    generate_filename tz s1 = generate_filename tz s2 ∧
    generate_filename tz s1 =
      strftimeYYMMDDHHMM (tz s1.start_time_utc) ++ "_"
        ++ underscoreSpaces s1.mouse_id ++ "_"
        ++ underscoreSpaces s1.recording_type ++ ".mp4" := by
  constructor
  · simp [generate_filename, ht, hm, hr]
  · rfl

/-- C8 witness: two sessions differing in id and camera but agreeing on
(start time, mouse id, recording type) get the same filename. -/
theorem generate_filename_pure_format_witness :
    generate_filename tz0
      { start_time_utc := 0, mouse_id := "m 1",
        recording_type := "sleep dep", session_id := "A" } =
    generate_filename tz0
      { start_time_utc := 0, mouse_id := "m 1",
        recording_type := "sleep dep", session_id := "B", camera := "x" } :=
  (generate_filename_pure_format tz0 _ _ rfl rfl rfl).1

/-! ## Metadata call histories (for the `is_default` characterisation) -/

/-- One metadata operation from the API surface: a (partial)
`set_metadata` call or a `clear_metadata` call. -/
inductive MetaCall where
  | set (mouse_id recording_type user_name : Option String)
        (chamber : Option Int)
  | clear
deriving DecidableEq, Repr

/-- Run a sequence of metadata calls against a manager state. -/
def applyCalls (s : SessionManagerState) : List MetaCall → SessionManagerState
  | [] => s
  | .set m r u c :: rest => applyCalls (set_metadata s m r u c).1 rest
  | .clear :: rest => applyCalls (clear_metadata s) rest

/-- The claim's condition, following the spec's words: some
`set_metadata` call with a non-null mouse_id, recording_type or
user_name argument has occurred since construction or since the last
`clear_metadata`. -/
def touchedSinceClear (calls : List MetaCall) : Bool :=
  calls.foldl
    (fun acc c => match c with
      | .clear => false
      | .set m r u _ => acc || m.isSome || r.isSome || u.isSome)
    false

/-- The value a given field holds after a call sequence, starting from
`cur`: a `clear` resets it to "unknown", a `set` overwrites it when the
corresponding argument is non-null. -/
def finalMouse (cur : String) : List MetaCall → String
  | [] => cur
  | .clear :: rest => finalMouse "unknown" rest
  | .set m _ _ _ :: rest => finalMouse (m.getD cur) rest

/-- Final `recording_type` value after a call sequence. -/
def finalRecordingType (cur : String) : List MetaCall → String
  | [] => cur
  | .clear :: rest => finalRecordingType "unknown" rest
  | .set _ r _ _ :: rest => finalRecordingType (r.getD cur) rest

/-- Final `user_name` value after a call sequence. -/
def finalUserName (cur : String) : List MetaCall → String
  | [] => cur
  | .clear :: rest => finalUserName "unknown" rest
  | .set _ _ u _ :: rest => finalUserName (u.getD cur) rest

lemma set_metadata_pending (s : SessionManagerState)
    (m r u : Option String) (c : Option Int) :
    (set_metadata s m r u c).1.pending_metadata =
      { mouse_id := m.getD s.pending_metadata.mouse_id
        recording_type := r.getD s.pending_metadata.recording_type
        user_name := u.getD s.pending_metadata.user_name
        chamber := c.getD s.pending_metadata.chamber } := by
  cases m <;> cases r <;> cases u <;> cases c <;> rfl

lemma applyCalls_mouse_id (calls : List MetaCall)
    (s : SessionManagerState) :
    (applyCalls s calls).pending_metadata.mouse_id
      = finalMouse s.pending_metadata.mouse_id calls := by
  induction calls generalizing s with
  | nil => rfl
  | cons c rest ih =>
    cases c with
    | clear => exact ih (clear_metadata s)
    | set m r u ch =>
      rw [applyCalls, ih, finalMouse, set_metadata_pending]

lemma applyCalls_recording_type (calls : List MetaCall)
    (s : SessionManagerState) :
    (applyCalls s calls).pending_metadata.recording_type
      = finalRecordingType s.pending_metadata.recording_type calls := by
  induction calls generalizing s with
  | nil => rfl
  | cons c rest ih =>
    cases c with
    | clear => exact ih (clear_metadata s)
    | set m r u ch =>
      rw [applyCalls, ih, finalRecordingType, set_metadata_pending]

lemma applyCalls_user_name (calls : List MetaCall)
    (s : SessionManagerState) :
    (applyCalls s calls).pending_metadata.user_name
      = finalUserName s.pending_metadata.user_name calls := by
  induction calls generalizing s with
  | nil => rfl
  | cons c rest ih =>
    cases c with
    | clear => exact ih (clear_metadata s)
    | set m r u ch =>
      rw [applyCalls, ih, finalUserName, set_metadata_pending]

/-- C5 counterexample: the claimed biconditional ("is_default iff no
set_metadata call with a non-null name argument since construction or
the last clear") is false: `set_metadata(mouse_id="unknown")` is a
non-null call, yet `is_default()` stays true afterwards. -/
theorem is_default_iff_touched_counterexample :
    ¬ (∀ calls : List MetaCall,
        (applyCalls smInit calls).pending_metadata.is_default
          = !touchedSinceClear calls) := by
  intro h
  exact absurd (h [MetaCall.set (some "unknown") none none none]) (by decide)

/-- C5 amended: `is_default()` after any sequence of `set_metadata` and
`clear_metadata` calls holds iff the last value stored in each of
mouse_id, recording_type and user_name (the default "unknown" after
construction or a clear, otherwise the latest non-null argument) equals
the placeholder string "unknown"; in particular a non-null call that
passes the literal "unknown" leaves `is_default()` true. -/
theorem is_default_final_values (calls : List MetaCall) :
    (applyCalls smInit calls).pending_metadata.is_default =
      ((finalMouse "unknown" calls == "unknown")
        && (finalRecordingType "unknown" calls == "unknown")
        && (finalUserName "unknown" calls == "unknown")) := by
  rw [SessionMetadata.is_default, applyCalls_mouse_id,
    applyCalls_recording_type, applyCalls_user_name]
  rfl

/-! ## Frigate controller (frigate_controller.py) -/

/-- Module constant `EXPORT_POLL_INTERVAL` (source: 2.0 s). -/
def EXPORT_POLL_INTERVAL : Nat := 2

/-- Module constant `EXPORT_TIMEOUT` (source: 300.0 s). -/
def EXPORT_TIMEOUT : Nat := 300

/-- The `timeout=5.0` argument of `wait_for_publish` in
`set_recording`. -/
def PUBLISH_ACK_TIMEOUT : Nat := 5

/-- Outcome of the `publish` + `wait_for_publish(timeout=5.0)` pair, as
paho-mqtt delivers it to the caller: the acknowledgment arrived within
the wait (`acked`); the wait elapsed without the acknowledgment —
paho's `wait_for_publish` returns normally in that case, raising
nothing (`ackTimedOut`); or `publish`/`wait_for_publish` raised an
exception (`raised`), e.g. a full outgoing queue or a failed publish
return code. -/
inductive PublishOutcome where
  | acked
  | ackTimedOut
  | raised (msg : String)
deriving DecidableEq, Repr

/-- Whether the transport raised during publish/wait. -/
def publishRaised : PublishOutcome → Bool
  | .raised _ => true
  | _ => false

/-- Mutable state of a `FrigateController` relevant to the command
channel: the cameras mapping, whether `_mqtt_client` is not `None`, and
the `_mqtt_connected` flag. -/
structure FrigateState where
  cameras : List (String × String) :=
    [("chamber_0", "pi_cam_0"), ("chamber_1", "pi_cam_1")]
  mqtt_client : Bool := false
  mqtt_connected : Bool := false
deriving DecidableEq, Repr

/-- `FrigateController.set_recording`: fails immediately when MQTT is
not connected or the client is unset; otherwise publishes "ON"/"OFF" to
`frigate/<camera>/recordings/set` with qos 1, waits up to 5 s for the
delivery acknowledgment and returns true unless the publish or the wait
raised.  Returns the success flag and the (topic, payload) pair handed
to `publish` (`none` when the guard failed and nothing was sent). -/
def set_recording (st : FrigateState) (camera_id : String) (enabled : Bool)
    (outcome : PublishOutcome) : Bool × Option (String × String) :=
  if !st.mqtt_connected || !st.mqtt_client then
    (false, none)
  else
    let topic := "frigate/" ++ camera_id ++ "/recordings/set"
    let payload := if enabled then "ON" else "OFF"
    match outcome with
    | .acked => (true, some (topic, payload))
    | .ackTimedOut => (true, some (topic, payload))
    | .raised _ => (false, some (topic, payload))

/-- A controller whose MQTT channel is up. -/
def frigateConnected : FrigateState :=
  { mqtt_client := true, mqtt_connected := true }

/-- C6 counterexample: on the connected path, an acknowledgment that
never arrives within the 5 s wait is NOT treated as failure — paho's
`wait_for_publish` returns silently on timeout and `set_recording`
returns true. -/
theorem set_recording_ack_timeout_counterexample :
    (set_recording frigateConnected "pi_cam_0" true .ackTimedOut).1 = true :=
  rfl

/-- C6 amended: `set_recording` returns false whenever the command
channel is not connected (or the client is unset); on the connected
path it waits at most `PUBLISH_ACK_TIMEOUT` = 5 seconds for the
delivery acknowledgment and returns false only when the publish or the
wait raises an error — a wait that times out without the acknowledgment
raises nothing and the call returns true. -/
theorem set_recording_result
    (st : FrigateState) (camera_id : String) (enabled : Bool)
    (outcome : PublishOutcome) :
    (set_recording st camera_id enabled outcome).1
        = (st.mqtt_connected && st.mqtt_client && !publishRaised outcome) ∧
    PUBLISH_ACK_TIMEOUT = 5 := by
  constructor
  · cases hc : st.mqtt_connected <;> cases hm : st.mqtt_client <;>
      cases outcome <;> simp [set_recording, publishRaised, hc, hm]
  · rfl

/-- `FrigateController.stop_all_recording`: iterates over every
configured camera, calling `set_recording(camera_id, False)` on each
(the environment supplies the per-camera publish outcome), and ANDs the
results into an overall success flag with no early exit.  Also returns
the list of camera ids on which `set_recording` was invoked, in order. -/
def stop_all_recording (st : FrigateState)
    (outcomes : String → PublishOutcome) : Bool × List String :=
  st.cameras.foldl
    (fun acc kv =>
      ((acc.1 && (set_recording st kv.2 false (outcomes kv.2)).1),
       acc.2 ++ [kv.2]))
    (true, [])

lemma stop_all_recording_foldl (st : FrigateState)
    (outcomes : String → PublishOutcome) (l : List (String × String)) :
    ∀ (b : Bool) (att : List String),
      l.foldl
        (fun acc kv =>
          ((acc.1 && (set_recording st kv.2 false (outcomes kv.2)).1),
           acc.2 ++ [kv.2]))
        (b, att)
      = (b && l.all (fun kv => (set_recording st kv.2 false (outcomes kv.2)).1),
         att ++ l.map (·.2)) := by
  induction l with
  | nil => intro b att; simp
  | cons kv rest ih =>
    intro b att
    simp only [List.foldl_cons, List.all_cons, List.map_cons, ih,
      Bool.and_assoc, List.append_assoc, List.singleton_append]

/-- C9: `stop_all_recording` invokes `set_recording(camera, false)` on
every configured camera in order — even when earlier calls fail — and
returns true iff every individual call returned true; in particular,
with the first camera's publish raising and the second acknowledged it
still attempts both cameras and returns overall failure. -/
theorem stop_all_recording_all_cameras (st : FrigateState)
    (outcomes : String → PublishOutcome) :
    (stop_all_recording st outcomes).2 = st.cameras.map (·.2) ∧
    ((stop_all_recording st outcomes).1 = true ↔
      ∀ kv ∈ st.cameras,
        (set_recording st kv.2 false (outcomes kv.2)).1 = true) ∧
    stop_all_recording frigateConnected
        (fun cid => if cid = "pi_cam_0" then .raised "publish failed"
                    else .acked)
      = (false, ["pi_cam_0", "pi_cam_1"]) := by
  refine ⟨?_, ?_, ?_⟩
  · rw [stop_all_recording, stop_all_recording_foldl]
    simp
  · rw [stop_all_recording, stop_all_recording_foldl]
    simp [List.all_eq_true]
  · rfl

/-- C9 witness: on a connected controller with every publish
acknowledged, both configured cameras are attempted in order and the
overall result is success. -/
theorem stop_all_recording_all_cameras_witness :
    (stop_all_recording frigateConnected (fun _ => .acked)).2
        = frigateConnected.cameras.map (·.2) ∧
    (stop_all_recording frigateConnected (fun _ => .acked)).1 = true :=
  ⟨(stop_all_recording_all_cameras frigateConnected (fun _ => .acked)).1,
   ((stop_all_recording_all_cameras frigateConnected
        (fun _ => .acked)).2.1).mpr (fun _ _ => rfl)⟩

/-- One entry of the list returned by Frigate's `/api/exports`
endpoint, restricted to the keys the daemon reads (`id`, `name`) plus
the `status` field the spec speaks about (which the code never
inspects). -/
structure ExportEntry where
  id : Option String := none
  name : Option String := none
  status : String := ""
deriving DecidableEq, Repr

/-- Python `export.get("id") or export.get("name")`: a falsy `id`
(absent or the empty string) falls through to `name`. -/
def exportEid (e : ExportEntry) : Option String :=
  match e.id with
  | some s => if s = "" then e.name else some s
  | none => e.name

/-- The loop's `eid == export_id` test (`None` compares unequal to any
string). -/
def eidMatches (export_id : String) (e : ExportEntry) : Bool :=
  match exportEid e with
  | some s => s == export_id
  | none => false

/-- The `for export in exports` scan of `wait_for_export`: first entry
whose id (or name) equals the requested export id. -/
def findExport (export_id : String) : List ExportEntry → Option ExportEntry
  | [] => none
  | e :: rest =>
    if eidMatches export_id e then some e else findExport export_id rest

/-- Outcome of one `requests.get("/api/exports")` poll: the decoded
export list, or a raised exception (connection/HTTP/JSON error). -/
inductive ExportsPollResult where
  | ok (exports : List ExportEntry)
  | err (msg : String)

/-- What attempt `k` yields: the matching record when the poll
succeeded and the id was found, `none` when the poll raised (the error
is logged and retried) or the id was absent. -/
def attemptFind (export_id : String) (env : Nat → ExportsPollResult)
    (k : Nat) : Option ExportEntry :=
  match env k with
  | .ok exports => findExport export_id exports
  | .err _ => none

/-- Number of poll attempts the `while time < deadline` loop performs:
with the deadline at `EXPORT_TIMEOUT` = 300 s, each iteration costing
its `EXPORT_POLL_INTERVAL` = 2 s sleep (responses modelled as
instantaneous), attempt `k` starts at elapsed time `2k`, so attempts
run for `k = 0 .. 149`. -/
def MAX_EXPORT_POLLS : Nat := EXPORT_TIMEOUT / EXPORT_POLL_INTERVAL

/-- The polling loop of `wait_for_export`: at attempt `k` with the
given fuel, return the matching record if found, otherwise sleep and
retry (a raised poll is logged and retried identically); `none` once
the deadline budget is exhausted. -/
def waitLoop (export_id : String) (env : Nat → ExportsPollResult) :
    Nat → Nat → Option ExportEntry
  | _, 0 => none
  | k, fuel + 1 =>
    match attemptFind export_id env k with
    | some e => some e
    | none => waitLoop export_id env (k + 1) fuel

/-- `FrigateController.wait_for_export`: poll `/api/exports` every 2 s
until the requested id appears or the 300 s deadline passes. -/
def wait_for_export (export_id : String)
    (env : Nat → ExportsPollResult) : Option ExportEntry :=
  waitLoop export_id env 0 MAX_EXPORT_POLLS

lemma waitLoop_eq_none_iff (export_id : String)
    (env : Nat → ExportsPollResult) :
    ∀ (fuel k0 : Nat),
      waitLoop export_id env k0 fuel = none ↔
        ∀ i, i < fuel → attemptFind export_id env (k0 + i) = none := by
  intro fuel
  induction fuel with
  | zero => intro k0; simp [waitLoop]
  | succ n ih =>
    intro k0
    rw [waitLoop]
    cases h : attemptFind export_id env k0 with
    | some e =>
      constructor
      · intro hc
        exact absurd hc (by simp)
      · intro hall
        have h0 := hall 0 (Nat.succ_pos n)
        rw [Nat.add_zero, h] at h0
        exact h0
    | none =>
      rw [ih (k0 + 1)]
      constructor
      · intro hall i hi
        cases i with
        | zero => simpa using h
        | succ j =>
          have hj : j < n := Nat.lt_of_succ_lt_succ hi
          have h2 := hall j hj
          have he : k0 + 1 + j = k0 + (j + 1) := by omega
          rwa [he] at h2
      · intro hall i hi
        have h2 := hall (i + 1) (Nat.succ_lt_succ hi)
        have he : k0 + (i + 1) = k0 + 1 + i := by omega
        rwa [he] at h2

lemma waitLoop_found (export_id : String)
    (env : Nat → ExportsPollResult) :
    ∀ (fuel k0 k : Nat) (e : ExportEntry),
      k0 ≤ k → k < k0 + fuel →
      attemptFind export_id env k = some e →
      (∀ j, k0 ≤ j → j < k → attemptFind export_id env j = none) →
      waitLoop export_id env k0 fuel = some e := by
  intro fuel
  induction fuel with
  | zero =>
    intro k0 k e hle hlt _ _
    omega
  | succ n ih =>
    intro k0 k e hle hlt hfound hprev
    rw [waitLoop]
    rcases Nat.eq_or_lt_of_le hle with heq | hgt
    · subst heq
      rw [hfound]
    · have h0 : attemptFind export_id env k0 = none :=
        hprev k0 (Nat.le_refl k0) hgt
      rw [h0]
      exact ih (k0 + 1) k e hgt (by omega) hfound
        (fun j hj1 hj2 => hprev j (Nat.le_of_succ_le hj1) hj2)

/-- C4 counterexample: `wait_for_export` returns the job record as soon
as the id appears in the export list, without inspecting its status —
here the job is listed with the non-terminal status "in_progress" on
the very first poll and is returned immediately, contradicting
"returns the job record only once the job appears in a terminal
state". -/
theorem wait_for_export_ignores_status_counterexample :
    wait_for_export "job1"
        (fun _ => .ok [{ id := some "job1", status := "in_progress" }])
      = some { id := some "job1", status := "in_progress" } ∧
    ("in_progress" ∈ (["complete", "failed"] : List String)) = False := by
  constructor
  · rfl
  · simp

/-- C4 amended: `wait_for_export` polls the export-list endpoint every
2 seconds and returns the job record as soon as a job with the given id
appears in the list, regardless of its status; it returns the timeout
signal `none` iff the id appears in no successful poll within the
300-second budget (150 attempts); an individual poll failure is logged
and retried rather than terminating the wait (it simply counts as an
attempt in which the id was not found). -/
theorem wait_for_export_characterization (export_id : String)
    (env : Nat → ExportsPollResult) :
    (wait_for_export export_id env = none ↔
      ∀ k, k < MAX_EXPORT_POLLS → attemptFind export_id env k = none) ∧
    (∀ k e, k < MAX_EXPORT_POLLS →
      attemptFind export_id env k = some e →
      (∀ j, j < k → attemptFind export_id env j = none) →
      wait_for_export export_id env = some e) := by
  constructor
  · rw [wait_for_export, waitLoop_eq_none_iff]
    simp
  · intro k e hk hfound hprev
    exact waitLoop_found export_id env MAX_EXPORT_POLLS 0 k e
      (Nat.zero_le k) (by omega) hfound
      (fun j _ hj => hprev j hj)

/-- C4 witness: with the first poll raising a connection error and the
second listing the job, the wait retries past the failure and returns
the record on attempt 1. -/
theorem wait_for_export_characterization_witness :
    wait_for_export "j"
        (fun k => if k = 0 then .err "connection refused"
                  else .ok [{ name := some "j", status := "done" }])
      = some { name := some "j", status := "done" } :=
  (wait_for_export_characterization "j"
      (fun k => if k = 0 then .err "connection refused"
                else .ok [{ name := some "j", status := "done" }])).2
    1 { name := some "j", status := "done" }
    (by decide) rfl
    (fun j hj => by
      have hj0 : j = 0 := Nat.lt_one_iff.mp hj
      subst hj0
      rfl)

end Neurosurveillance
